import Mathlib

/-!
Verification development for the `Servicios` marketplace backend
(`api_code/main.py`).

The Python endpoints are shallowly embedded as pure Lean functions over an
explicit relational state (`DB`).  SQL statements become list operations
(`find?` models `fetchone` on the first matching row, `map` models
`UPDATE ... WHERE`, `++` models `INSERT`), `conn.commit()` corresponds to
returning the mutated state, and the `except`-driven `conn.rollback()`
corresponds to returning the original state together with the mapped error.
Python exceptions are modelled by `PyError`: `fastapi.HTTPException` raised
inside an endpoint body, and `AttributeError` for an access to an attribute
that a Pydantic model does not declare (Pydantic `BaseModel` raises
`AttributeError` on undeclared attribute reads).  Each endpoint is split into
a `_body` function (the `try:` block) and a wrapper applying the endpoint's
actual `except` clauses, because several endpoints catch their own
`HTTPException` in a blanket `except Exception` and replace it with a 500.

Timestamps are integers counted in days (`datetime.now()` becomes a `now`
parameter, `timedelta(days=d)` becomes `+ d`).  Monetary amounts and rating
averages are rationals (SQL `numeric` / `AVG`).  Row ids are naturals; the
serial/uuid id generated by an `INSERT ... RETURNING id` is passed in as an
explicit `newId` argument.
-/

/-! ## Password hashing (`encriptar_password` / `verificar_password`)

The Python helpers slice the plaintext to its first 72 *characters*
(`password_plana[:72]`), UTF-8-encode it, and call the external `bcrypt`
library, which itself uses at most the first 72 *bytes* of its input.
`bcrypt` is modelled as an idealized keyed function that retains exactly the
first 72 bytes of the password (collision-freeness of the digest is
idealized; the 72-byte truncation is the documented library behaviour). -/

/-- UTF-8 encoding of a single character (code point → byte list). -/
def utf8Char (c : Char) : List Nat :=
  let n := c.toNat
  if n < 0x80 then [n]
  else if n < 0x800 then
    [0xC0 + n / 0x40, 0x80 + n % 0x40]
  else if n < 0x10000 then
    [0xE0 + n / 0x1000, 0x80 + n / 0x40 % 0x40, 0x80 + n % 0x40]
  else
    [0xF0 + n / 0x40000, 0x80 + n / 0x1000 % 0x40, 0x80 + n / 0x40 % 0x40,
      0x80 + n % 0x40]

/-- UTF-8 encoding of a character list (`str.encode("utf-8")`). -/
def utf8Bytes (s : List Char) : List Nat :=
  s.flatMap utf8Char

/-- Result of `bcrypt.hashpw`: the salt together with the part of the
password the algorithm actually keys on. -/
structure BcryptHash where
  salt : Nat
  digest : List Nat
deriving Repr, DecidableEq

/-- Model of `bcrypt.hashpw(password, salt)`: bcrypt uses at most the first
72 bytes of `password`. -/
def bcrypt_hashpw (password : List Nat) (salt : Nat) : BcryptHash :=
  ⟨salt, password.take 72⟩

/-- Model of `bcrypt.checkpw(password, h)`: rehash with the stored salt and
compare. -/
def bcrypt_checkpw (password : List Nat) (h : BcryptHash) : Bool :=
  bcrypt_hashpw password h.salt == h

/-- `encriptar_password` (main.py): UTF-8-encode `password_plana[:72]`
(first 72 characters) and hash it with a fresh salt. -/
def encriptar_password (password_plana : String) (salt : Nat) : BcryptHash :=
  bcrypt_hashpw (utf8Bytes (password_plana.data.take 72)) salt

/-- `verificar_password` (main.py): UTF-8-encode `password_plana[:72]` and
check it against the stored hash. -/
def verificar_password (password_plana : String) (password_hash : BcryptHash) : Bool :=
  bcrypt_checkpw (utf8Bytes (password_plana.data.take 72)) password_hash

theorem utf8Char_length_pos (c : Char) : 0 < (utf8Char c).length := by
  unfold utf8Char
  simp only []
  split <;> try simp
  split <;> try simp
  split <;> simp

theorem utf8Bytes_take_char (l : List Char) (k : Nat) :
    (utf8Bytes (l.take k)).take k = (utf8Bytes l).take k := by
  induction l generalizing k with
  | nil => simp
  | cons c cs ih =>
    cases k with
    | zero => simp
    | succ j =>
      simp only [List.take_succ_cons, utf8Bytes, List.flatMap_cons]
      rw [List.take_append_eq_append_take, List.take_append_eq_append_take]
      congr 1
      have h1 : j + 1 - (utf8Char c).length ≤ j := by
        have := utf8Char_length_pos c
        omega
      have h2 := ih (k := j)
      calc (utf8Bytes (cs.take j)).take (j + 1 - (utf8Char c).length)
          = ((utf8Bytes (cs.take j)).take j).take (j + 1 - (utf8Char c).length) := by
            rw [List.take_take, Nat.min_eq_left h1]
        _ = ((utf8Bytes cs).take j).take (j + 1 - (utf8Char c).length) := by rw [h2]
        _ = (utf8Bytes cs).take (j + 1 - (utf8Char c).length) := by
            rw [List.take_take, Nat.min_eq_left h1]

/-! ## Relational data model

One structure per table, with the columns the verified endpoints touch.
`Option` marks nullable columns; SQL `x = NULL` never holds, which the
embedding reflects wherever a nullable column is compared. -/

/-- Row of the `usuarios` table. -/
structure Usuario where
  id : Nat
  nombre : String
  apellidos : String
  correo_electronico : String
  password_hash : BcryptHash
  telefono : String
  es_admin : Bool
  activo : Bool
  codigo_verificacion : Option String
  bloqueado_hasta : Option Int
  foto_perfil_url : Option String
deriving Repr, DecidableEq

/-- Row of the `detalles_cliente` table. -/
structure DetallesCliente where
  usuario_id : Nat
  calle : String
  colonia : String
  numero_exterior : String
  numero_interior : Option String
  codigo_postal : String
  ciudad : String
  referencias_domicilio : Option String
  latitud : Option ℚ
  longitud : Option ℚ
deriving Repr, DecidableEq

/-- Row of the `detalles_trabajador` table. -/
structure DetallesTrabajador where
  usuario_id : Nat
  descripcion_bio : String
  anios_experiencia : Nat
  tarifa_hora_estimada : ℚ
  calificacion_promedio : ℚ
  total_evaluaciones : Nat
  validado_por_admin : Bool
deriving Repr, DecidableEq

/-- Row of the `servicios` table (estado ∈ SOLICITADO / EN_PROCESO /
TERMINADO). -/
structure Servicio where
  id : Nat
  cliente_id : Nat
  categoria_id : Nat
  titulo : String
  descripcion : String
  estado : String
  trabajador_id : Option Nat
  precio_estimado : Option ℚ
  calificacion : Option Nat
  resena : Option String
deriving Repr, DecidableEq

/-- Row of the `propuestas` table. -/
structure Propuesta where
  id : Nat
  servicio_id : Nat
  trabajador_id : Nat
  precio_oferta : ℚ
  mensaje : String
  aceptada : Bool
deriving Repr, DecidableEq

/-- The relational store reachable through the shared connection. -/
structure DB where
  usuarios : List Usuario
  detalles_cliente : List DetallesCliente
  detalles_trabajador : List DetallesTrabajador
  servicios : List Servicio
  propuestas : List Propuesta
deriving Repr, DecidableEq

deriving instance DecidableEq for Except

/-- `fastapi.HTTPException(status_code, detail)`. -/
structure HTTPException where
  status_code : Nat
  detail : String
deriving Repr, DecidableEq

/-- Exceptions an endpoint body can raise: an `HTTPException`, or Python's
`AttributeError` from reading an attribute a Pydantic model does not
declare. -/
inductive PyError where
  | http (e : HTTPException)
  | attributeError (attr : String)
deriving Repr, DecidableEq

/-- Python truthiness of an `Optional[str]`: `None` and `""` are falsy. -/
def pyTruthyStr (o : Option String) : Bool :=
  match o with
  | none => false
  | some s => s ≠ ""

/-- Python truthiness of an `Optional[int]`: `None` and `0` are falsy. -/
def pyTruthyInt (o : Option Int) : Bool :=
  match o with
  | none => false
  | some n => n ≠ 0

/-! ## Endpoint: `POST /verificar-cuenta` (`verificar_cuenta`) -/

/-- The `try:` block of `verificar_cuenta`: look the user up by email
(404 if absent), return early if already active, activate on a matching
code, raise 400 on a mismatch. -/
def verificar_cuenta_body (db : DB) (correo codigo : String) :
    Except PyError (DB × String) :=
  match db.usuarios.find? (fun u => u.correo_electronico == correo) with
  | none => .error (.http ⟨404, "Usuario no encontrado."⟩)
  | some u =>
    if u.activo then .ok (db, "Cuenta ya activa.")
    else if u.codigo_verificacion == some codigo then
      .ok ({db with usuarios :=
              db.usuarios.map fun v =>
                if v.id == u.id then {v with activo := true} else v},
           "¡Cuenta activada!")
    else .error (.http ⟨400, "Código incorrecto."⟩)

/-- The `verificar_cuenta` endpoint.  Its only handler is
`except Exception: conn.rollback(); raise HTTPException(500, ...)`, which
also catches the body's own `HTTPException`s (404 / 400) and replaces them
with a 500. -/
def verificar_cuenta (db : DB) (correo codigo : String) :
    DB × Except HTTPException String :=
  match verificar_cuenta_body db correo codigo with
  | .ok (db', r) => (db', .ok r)
  | .error _ => (db, .error ⟨500, "Error interno."⟩)

/-! ## Endpoint: `POST /login` (`login`) -/

/-- The `usuario` object in a successful login response. -/
structure UsuarioOut where
  id : Nat
  nombre : String
  es_admin : Bool
  es_trabajador : Bool
deriving Repr, DecidableEq

/-- Successful login response. -/
structure LoginResp where
  mensaje : String
  usuario : UsuarioOut
deriving Repr, DecidableEq

/-- The `try:` block of `login`: single 401 for unknown email, inactive
account, or password mismatch; then a 403 if `bloqueado_hasta` lies strictly
in the future; then the `es_trabajador` existence probe. -/
def login_body (db : DB) (now : Int) (correo password : String) :
    Except PyError LoginResp :=
  match db.usuarios.find? (fun u => u.correo_electronico == correo) with
  | none => .error (.http ⟨401, "Credenciales incorrectas o inactiva."⟩)
  | some u =>
    if !u.activo || !verificar_password password u.password_hash then
      .error (.http ⟨401, "Credenciales incorrectas o inactiva."⟩)
    else
      match u.bloqueado_hasta with
      | some bloqueo =>
        if bloqueo > now then .error (.http ⟨403, "Cuenta bloqueada."⟩)
        else
          .ok ⟨"Login exitoso",
               ⟨u.id, u.nombre, u.es_admin,
                (db.detalles_trabajador.find?
                  (fun dt => dt.usuario_id == u.id)).isSome⟩⟩
      | none =>
        .ok ⟨"Login exitoso",
             ⟨u.id, u.nombre, u.es_admin,
              (db.detalles_trabajador.find?
                (fun dt => dt.usuario_id == u.id)).isSome⟩⟩

/-- The `login` endpoint.  Its only handler is
`except Exception: raise HTTPException(500, "Error interno")`, which also
catches the body's own 401 / 403 and replaces them with a 500.  `login`
performs no writes, so no state is threaded. -/
def login (db : DB) (now : Int) (correo password : String) :
    Except HTTPException LoginResp :=
  match login_body db now correo password with
  | .ok r => .ok r
  | .error _ => .error ⟨500, "Error interno"⟩

/-! ## Endpoint: `PUT /mi-perfil-cliente/{usuario_id}`
(`update_perfil_cliente`)

The Pydantic request model `PerfilClienteUpdate` declares exactly the fields
below.  The endpoint body also reads `d.correo_electronico`,
`d.numero_exterior`, `d.numero_interior`, `d.referencias`, `d.latitud` and
`d.longitud`, none of which are declared, so those reads raise
`AttributeError`; attribute reads are therefore embedded as fallible
lookups by name. -/

/-- Pydantic model `PerfilClienteUpdate` (its declared fields only). -/
structure PerfilClienteUpdate where
  nombre : String
  apellidos : String
  telefono : String
  calle : String
  colonia : String
  codigo_postal : String
  ciudad : String
  foto_perfil_url : Option String
  password_nuevo : Option String
deriving Repr, DecidableEq

/-- Read a string-valued attribute of a `PerfilClienteUpdate`;
`AttributeError` on any name the model does not declare with that type. -/
def PerfilClienteUpdate.getattrStr (d : PerfilClienteUpdate) (a : String) :
    Except PyError String :=
  match a with
  | "nombre" => .ok d.nombre
  | "apellidos" => .ok d.apellidos
  | "telefono" => .ok d.telefono
  | "calle" => .ok d.calle
  | "colonia" => .ok d.colonia
  | "codigo_postal" => .ok d.codigo_postal
  | "ciudad" => .ok d.ciudad
  | _ => .error (.attributeError a)

/-- Read an optional-string attribute of a `PerfilClienteUpdate`;
`AttributeError` on any name the model does not declare with that type. -/
def PerfilClienteUpdate.getattrOptStr (d : PerfilClienteUpdate) (a : String) :
    Except PyError (Option String) :=
  match a with
  | "foto_perfil_url" => .ok d.foto_perfil_url
  | "password_nuevo" => .ok d.password_nuevo
  | _ => .error (.attributeError a)

/-- Read an optional-rational attribute of a `PerfilClienteUpdate`: the model
declares no such field, so every such read raises `AttributeError`. -/
def PerfilClienteUpdate.getattrOptRat (_ : PerfilClienteUpdate) (a : String) :
    Except PyError (Option ℚ) :=
  .error (.attributeError a)

/-- The `try:` block of `update_perfil_cliente`, with the SQL parameter
tuples evaluated left to right exactly as written in the source.  Both
branches of `if d.password_nuevo:` read `d.correo_electronico` while
building the first `UPDATE usuarios` tuple, so the body always raises
`AttributeError` before touching the store. -/
def update_perfil_cliente_body (db : DB) (usuario_id : Nat)
    (d : PerfilClienteUpdate) (salt : Nat) : Except PyError (DB × String) := do
  let pwd ← d.getattrOptStr "password_nuevo"
  let usuarios' ←
    if pyTruthyStr pwd then do
      let h := encriptar_password (pwd.getD "") salt
      let nombre ← d.getattrStr "nombre"
      let apellidos ← d.getattrStr "apellidos"
      let telefono ← d.getattrStr "telefono"
      let correo ← d.getattrStr "correo_electronico"
      let foto ← d.getattrOptStr "foto_perfil_url"
      pure (db.usuarios.map fun u =>
        if u.id == usuario_id then
          {u with nombre := nombre, apellidos := apellidos,
                  telefono := telefono, correo_electronico := correo,
                  foto_perfil_url := foto, password_hash := h}
        else u)
    else do
      let nombre ← d.getattrStr "nombre"
      let apellidos ← d.getattrStr "apellidos"
      let telefono ← d.getattrStr "telefono"
      let correo ← d.getattrStr "correo_electronico"
      let foto ← d.getattrOptStr "foto_perfil_url"
      pure (db.usuarios.map fun u =>
        if u.id == usuario_id then
          {u with nombre := nombre, apellidos := apellidos,
                  telefono := telefono, correo_electronico := correo,
                  foto_perfil_url := foto}
        else u)
  let calle ← d.getattrStr "calle"
  let colonia ← d.getattrStr "colonia"
  let codigo_postal ← d.getattrStr "codigo_postal"
  let ciudad ← d.getattrStr "ciudad"
  let numero_exterior ← d.getattrStr "numero_exterior"
  let numero_interior ← d.getattrOptStr "numero_interior"
  let referencias ← d.getattrOptStr "referencias"
  let latitud ← d.getattrOptRat "latitud"
  let longitud ← d.getattrOptRat "longitud"
  let detalles' := db.detalles_cliente.map fun c =>
    if c.usuario_id == usuario_id then
      {c with calle := calle, colonia := colonia,
              codigo_postal := codigo_postal, ciudad := ciudad,
              numero_exterior := numero_exterior,
              numero_interior := numero_interior,
              referencias_domicilio := referencias,
              latitud := latitud, longitud := longitud}
    else c
  pure ({db with usuarios := usuarios', detalles_cliente := detalles'},
        "Perfil actualizado")

/-- The `update_perfil_cliente` endpoint: any exception rolls the
transaction back and surfaces as a 500. -/
def update_perfil_cliente (db : DB) (usuario_id : Nat)
    (d : PerfilClienteUpdate) (salt : Nat) :
    DB × Except HTTPException String :=
  match update_perfil_cliente_body db usuario_id d salt with
  | .ok (db', r) => (db', .ok r)
  | .error _ => (db, .error ⟨500, "Error update"⟩)

/-! ## Endpoint: `POST /propuestas` (`crear_propuesta`) -/

/-- Pydantic model `CrearPropuesta`. -/
structure CrearPropuesta where
  servicio_id : Nat
  trabajador_id : Nat
  precio_oferta : ℚ
  mensaje : String
deriving Repr, DecidableEq

/-- The `try:` block of `crear_propuesta`: probe for an existing proposal by
the same worker on the same request (400 if found), otherwise insert a row
with a fresh id (`newId`, the serial generated by the store). -/
def crear_propuesta_body (db : DB) (datos : CrearPropuesta) (newId : Nat) :
    Except PyError (DB × String) :=
  if (db.propuestas.find? fun p =>
        p.servicio_id == datos.servicio_id &&
        p.trabajador_id == datos.trabajador_id).isSome then
    .error (.http ⟨400, "Ya te has postulado."⟩)
  else
    .ok ({db with propuestas := db.propuestas ++
            [⟨newId, datos.servicio_id, datos.trabajador_id,
              datos.precio_oferta, datos.mensaje, false⟩]},
         "Propuesta enviada")

/-- The `crear_propuesta` endpoint.  Unlike `verificar_cuenta` and `login`,
this endpoint re-raises its own `HTTPException` (`except HTTPException as e:
raise e`) before the blanket 500 handler, so the 400 survives. -/
def crear_propuesta (db : DB) (datos : CrearPropuesta) (newId : Nat) :
    DB × Except HTTPException String :=
  match crear_propuesta_body db datos newId with
  | .ok (db', r) => (db', .ok r)
  | .error (.http e) => (db, .error e)
  | .error _ => (db, .error ⟨500, "Error propuesta"⟩)

/-! ## Endpoint: `POST /servicios/contratar` (`contratar_trabajador`) -/

/-- Pydantic model `AceptarPropuesta`. -/
structure AceptarPropuesta where
  servicio_id : Nat
  trabajador_id : Nat
  propuesta_id : Nat
deriving Repr, DecidableEq

/-- The `try:` block of `contratar_trabajador`: one unconditional
`UPDATE servicios SET trabajador_id, estado = EN_PROCESO, precio_estimado =
(scalar subquery on propuestas) WHERE id = servicio_id` — with no condition
on the current `estado` and no check that any row matched — followed by
`UPDATE propuestas SET aceptada = TRUE WHERE id = propuesta_id`. -/
def contratar_trabajador_body (db : DB) (datos : AceptarPropuesta) :
    Except PyError (DB × String) :=
  let precioSub : Option ℚ :=
    (db.propuestas.find? fun p => p.id == datos.propuesta_id).map
      (fun p => p.precio_oferta)
  let servicios' := db.servicios.map fun s =>
    if s.id == datos.servicio_id then
      {s with trabajador_id := some datos.trabajador_id,
              estado := "EN_PROCESO", precio_estimado := precioSub}
    else s
  let propuestas' := db.propuestas.map fun p =>
    if p.id == datos.propuesta_id then {p with aceptada := true} else p
  .ok ({db with servicios := servicios', propuestas := propuestas'},
       "¡Contratado!")

/-- The `contratar_trabajador` endpoint (blanket 500 handler; the body never
raises). -/
def contratar_trabajador (db : DB) (datos : AceptarPropuesta) :
    DB × Except HTTPException String :=
  match contratar_trabajador_body db datos with
  | .ok (db', r) => (db', .ok r)
  | .error _ => (db, .error ⟨500, "Error contratar"⟩)

/-! ## Endpoint: `POST /servicios/finalizar` (`finalizar_servicio`) -/

/-- Pydantic model `CalificarServicio`. -/
structure CalificarServicio where
  servicio_id : Nat
  calificacion : Nat
  resena : String
deriving Repr, DecidableEq

/-- Sum of the `calificacion` column over a list of rows (as SQL numeric). -/
def sumCalificaciones (l : List Servicio) : ℚ :=
  (l.map fun s => ((s.calificacion.getD 0 : Nat) : ℚ)).sum

/-- The effect on `servicios` of the first statement of
`finalizar_servicio`: `UPDATE servicios SET estado = TERMINADO,
calificacion, resena WHERE id = servicio_id`. -/
def finalizar_servicio_update (db : DB) (datos : CalificarServicio) :
    List Servicio :=
  db.servicios.map fun s =>
    if s.id == datos.servicio_id then
      {s with estado := "TERMINADO", calificacion := some datos.calificacion,
              resena := some datos.resena}
    else s

/-- The `try:` block of `finalizar_servicio`: the UPDATE above with
`RETURNING trabajador_id` (404 when no row matched — but see the wrapper);
then `SELECT AVG(calificacion), COUNT(*) FROM servicios WHERE trabajador_id
= tid AND calificacion IS NOT NULL` (no row satisfies `trabajador_id =
NULL`), and an `UPDATE detalles_trabajador` with `AVG or 0` and the count. -/
def finalizar_servicio_body (db : DB) (datos : CalificarServicio) :
    Except PyError (DB × String) :=
  match (finalizar_servicio_update db datos).find?
      (fun s => s.id == datos.servicio_id) with
  | none => .error (.http ⟨404, "Servicio no encontrado"⟩)
  | some res =>
    let rated : List Servicio :=
      match res.trabajador_id with
      | none => []
      | some tid =>
        (finalizar_servicio_update db datos).filter fun s =>
          s.trabajador_id == some tid && s.calificacion.isSome
    let pro : Option ℚ :=
      if rated.length == 0 then none
      else some (sumCalificaciones rated / (rated.length : ℚ))
    let tot : Nat := rated.length
    let detalles' :=
      match res.trabajador_id with
      | none => db.detalles_trabajador
      | some tid =>
        db.detalles_trabajador.map fun dt =>
          if dt.usuario_id == tid then
            {dt with calificacion_promedio := pro.getD 0,
                     total_evaluaciones := tot}
          else dt
    .ok ({db with servicios := finalizar_servicio_update db datos,
                  detalles_trabajador := detalles'},
         "Finalizado y calificado")

/-- The `finalizar_servicio` endpoint.  Its only handler is the blanket
`except Exception`, so the body's own 404 is also replaced by a 500. -/
def finalizar_servicio (db : DB) (datos : CalificarServicio) :
    DB × Except HTTPException String :=
  match finalizar_servicio_body db datos with
  | .ok (db', r) => (db', .ok r)
  | .error _ => (db, .error ⟨500, "Error finalizar"⟩)

/-! ## Endpoint: `POST /admin/accion` (`admin_accion_usuario`) -/

/-- Pydantic model `AccionAdmin` (`dias_bloqueo: Optional[int] = 0`). -/
structure AccionAdmin where
  usuario_id : Nat
  accion : String
  dias_bloqueo : Option Int
deriving Repr, DecidableEq

/-- The `admin_accion_usuario` endpoint: `validar` flips the worker's
validation flag, `bloquear` sets `bloqueado_hasta = now + dias` where
`dias = datos.dias_bloqueo if datos.dias_bloqueo else 36500` (Python
truthiness: both `None` and `0` fall back to 36500), `desbloquear` clears
the timestamp, `borrar` deletes the user row (detail rows cascade by
foreign-key policy), and any other action string falls through to a bare
commit.  Every branch answers with the same success message. -/
def admin_accion_usuario (db : DB) (now : Int) (datos : AccionAdmin) :
    DB × Except HTTPException String :=
  let db' :=
    if datos.accion == "validar" then
      {db with detalles_trabajador := db.detalles_trabajador.map fun dt =>
        if dt.usuario_id == datos.usuario_id then
          {dt with validado_por_admin := true}
        else dt}
    else if datos.accion == "bloquear" then
      let dias : Int :=
        match datos.dias_bloqueo with
        | some n => if pyTruthyInt (some n) then n else 36500
        | none => 36500
      let fecha_fin := now + dias
      {db with usuarios := db.usuarios.map fun u =>
        if u.id == datos.usuario_id then
          {u with bloqueado_hasta := some fecha_fin}
        else u}
    else if datos.accion == "desbloquear" then
      {db with usuarios := db.usuarios.map fun u =>
        if u.id == datos.usuario_id then {u with bloqueado_hasta := none}
        else u}
    else if datos.accion == "borrar" then
      {db with
        usuarios := db.usuarios.filter fun u => u.id != datos.usuario_id,
        detalles_cliente := db.detalles_cliente.filter fun c =>
          c.usuario_id != datos.usuario_id,
        detalles_trabajador := db.detalles_trabajador.filter fun dt =>
          dt.usuario_id != datos.usuario_id}
    else db
  (db', .ok ("Acción \x27" ++ datos.accion ++ "\x27 ejecutada."))

/-! ## Claim theorems -/

/-- C8: `encriptar_password` and `verificar_password` slice the plaintext to
its first 72 characters and hand it to bcrypt, which keys on at most the
first 72 bytes; since 72 characters always cover at least 72 bytes, the
effective input is exactly the 72-byte prefix of the UTF-8 encoding, so two
passwords agreeing on their first 72 bytes hash and verify identically. -/
theorem C8_password_72_byte_truncation (p1 p2 : String)
    (h : (utf8Bytes p1.data).take 72 = (utf8Bytes p2.data).take 72) :
    (∀ salt : Nat, encriptar_password p1 salt = encriptar_password p2 salt) ∧
    (∀ hsh : BcryptHash,
      verificar_password p1 hsh = verificar_password p2 hsh) := by
  have e1 : (utf8Bytes (p1.data.take 72)).take 72 =
      (utf8Bytes (p2.data.take 72)).take 72 := by
    rw [utf8Bytes_take_char, utf8Bytes_take_char, h]
  constructor
  · intro salt
    simp [encriptar_password, bcrypt_hashpw, e1]
  · intro hsh
    simp [verificar_password, bcrypt_checkpw, bcrypt_hashpw, e1]

/-- Witness for C8: two 73-character passwords that differ only in their
73rd character (beyond the 72-byte prefix) verify identically. -/
theorem C8_password_72_byte_truncation_witness :
    verificar_password (String.mk (List.replicate 72 'a' ++ ['X']))
        (encriptar_password (String.mk (List.replicate 72 'a' ++ ['X'])) 5) =
      verificar_password (String.mk (List.replicate 72 'a' ++ ['Y']))
        (encriptar_password (String.mk (List.replicate 72 'a' ++ ['X'])) 5) :=
  (C8_password_72_byte_truncation (String.mk (List.replicate 72 'a' ++ ['X']))
      (String.mk (List.replicate 72 'a' ++ ['Y'])) (by decide)).2
    (encriptar_password (String.mk (List.replicate 72 'a' ++ ['X'])) 5)

/-- Store with one inactive user awaiting verification (code `123456`). -/
def dbC2 : DB :=
  { usuarios := [⟨1, "Eva", "P", "eva@x.com", encriptar_password "pw" 3,
                  "555", false, false, some "123456", none, none⟩],
    detalles_cliente := [], detalles_trabajador := [],
    servicios := [], propuestas := [] }

/-- C2 (code bug): `verificar_cuenta`'s own 404 (unknown email) and 400
(wrong code) are swallowed by its blanket `except Exception` handler and
surface as 500, contradicting the claimed `NotFound` / `InvalidCode`; a
matching code does activate the account and succeed. -/
theorem C2_verificar_cuenta_error_kinds :
    verificar_cuenta_body dbC2 "nadie@x.com" "123456" =
      .error (.http ⟨404, "Usuario no encontrado."⟩) ∧
    (verificar_cuenta dbC2 "nadie@x.com" "123456").2 =
      .error ⟨500, "Error interno."⟩ ∧
    verificar_cuenta_body dbC2 "eva@x.com" "000000" =
      .error (.http ⟨400, "Código incorrecto."⟩) ∧
    (verificar_cuenta dbC2 "eva@x.com" "000000").2 =
      .error ⟨500, "Error interno."⟩ ∧
    (verificar_cuenta dbC2 "eva@x.com" "000000").1 = dbC2 ∧
    (verificar_cuenta dbC2 "eva@x.com" "123456").2 = .ok "¡Cuenta activada!" ∧
    (verificar_cuenta dbC2 "eva@x.com" "123456").1.usuarios.all
      (fun u => u.activo) = true := by
  decide

/-- Store with one active user, correct password `secreto`, locked until
day 100. -/
def dbC3 : DB :=
  { usuarios := [⟨7, "Leo", "M", "leo@x.com", encriptar_password "secreto" 11,
                  "555", false, true, none, some 100, none⟩],
    detalles_cliente := [], detalles_trabajador := [],
    servicios := [], propuestas := [] }

/-- C3 (code bug): with a lock-until timestamp strictly in the future and
correct credentials, `login`'s body raises the intended 403
(`AccountLocked`) but the endpoint's blanket `except Exception` replaces it
with a 500, so the claimed `AccountLocked` never surfaces; once the
timestamp has passed, or after an admin `desbloquear` clears it, the same
credentials log in successfully. -/
theorem C3_login_locked_surfaces_500 :
    login_body dbC3 50 "leo@x.com" "secreto" =
      .error (.http ⟨403, "Cuenta bloqueada."⟩) ∧
    login dbC3 50 "leo@x.com" "secreto" = .error ⟨500, "Error interno"⟩ ∧
    login dbC3 200 "leo@x.com" "secreto" =
      .ok ⟨"Login exitoso", ⟨7, "Leo", false, false⟩⟩ ∧
    login ((admin_accion_usuario dbC3 50 ⟨7, "desbloquear", some 0⟩).1)
        50 "leo@x.com" "secreto" =
      .ok ⟨"Login exitoso", ⟨7, "Leo", false, false⟩⟩ := by
  decide

/-- C6: a login attempt against an existing active account with a wrong
password and a login attempt with an email unknown to the store produce
exactly the same outcome — the body raises the single undifferentiated 401
in both cases and the blanket handler maps both to the same 500 — so the
two cases are indistinguishable to the caller. -/
theorem C6_login_no_information_leak (db : DB) (now : Int)
    (e1 p1 e2 p2 : String) (u : Usuario)
    (h1 : db.usuarios.find? (fun v => v.correo_electronico == e1) = some u)
    (h2 : u.activo = true)
    (h3 : verificar_password p1 u.password_hash = false)
    (h4 : db.usuarios.find? (fun v => v.correo_electronico == e2) = none) :
    login db now e1 p1 = login db now e2 p2 ∧
    login db now e1 p1 = .error ⟨500, "Error interno"⟩ := by
  constructor <;> simp [login, login_body, h1, h2, h3, h4]

/-- Store for the C6 witness: one active user whose password is `right`. -/
def dbC6 : DB :=
  { usuarios := [⟨3, "Ana", "R", "ana@x.com", encriptar_password "right" 9,
                  "555", false, true, none, none, none⟩],
    detalles_cliente := [], detalles_trabajador := [],
    servicios := [], propuestas := [] }

/-- Witness for C6: wrong password for `ana@x.com` and a login as the
unknown `ghost@x.com` give identical results. -/
theorem C6_login_no_information_leak_witness :
    login dbC6 0 "ana@x.com" "wrong" = login dbC6 0 "ghost@x.com" "whatever" :=
  (C6_login_no_information_leak dbC6 0 "ana@x.com" "wrong" "ghost@x.com"
    "whatever"
    ⟨3, "Ana", "R", "ana@x.com", encriptar_password "right" 9,
     "555", false, true, none, none, none⟩
    (by decide) (by decide) (by decide) (by decide)).1

/-- C1 (code bug): every call to `update_perfil_cliente` — with or without a
new password — reads `d.correo_electronico`, which `PerfilClienteUpdate`
does not declare, so the body raises `AttributeError` before executing any
SQL; the blanket handler rolls back and returns 500, leaving both the User
row and the ClientDetail row untouched.  No request can succeed. -/
theorem C1_update_perfil_cliente_always_fails (db : DB) (usuario_id : Nat)
    (d : PerfilClienteUpdate) (salt : Nat) :
    update_perfil_cliente_body db usuario_id d salt =
      .error (.attributeError "correo_electronico") ∧
    update_perfil_cliente db usuario_id d salt =
      (db, .error ⟨500, "Error update"⟩) := by
  have hb : update_perfil_cliente_body db usuario_id d salt =
      .error (.attributeError "correo_electronico") := by
    unfold update_perfil_cliente_body
    cases hp : pyTruthyStr d.password_nuevo <;>
      simp [PerfilClienteUpdate.getattrOptStr, PerfilClienteUpdate.getattrStr,
        hp, Except.bind, bind]
  exact ⟨hb, by simp [update_perfil_cliente, hb]⟩

/-- Number of proposal rows for a given (service, worker) pair. -/
def countPropuestas (db : DB) (sid wid : Nat) : Nat :=
  (db.propuestas.filter fun p =>
    p.servicio_id == sid && p.trabajador_id == wid).length

theorem find?_append_singleton_isSome {α : Type} (l : List α) (p : α → Bool)
    (a : α) (ha : p a = true) : ((l ++ [a]).find? p).isSome = true := by
  induction l with
  | nil => simp [List.find?, ha]
  | cons x xs ih =>
    rw [List.cons_append]
    by_cases hx : p x = true
    · rw [List.find?_cons_of_pos _ hx]
      rfl
    · rw [List.find?_cons_of_neg _ hx]
      exact ih

/-- C7: starting from a store with no proposal for the pair, the first
submission succeeds and inserts exactly one row for that (service, worker)
pair; a second submission by the same worker on the same request fails with
the 400 `DuplicateProposal` error and leaves the store unchanged, so exactly
one row for the pair exists afterward. -/
theorem C7_duplicate_proposal (db : DB) (datos : CrearPropuesta) (n1 n2 : Nat)
    (h : countPropuestas db datos.servicio_id datos.trabajador_id = 0) :
    (crear_propuesta db datos n1).2 = .ok "Propuesta enviada" ∧
    countPropuestas (crear_propuesta db datos n1).1 datos.servicio_id
      datos.trabajador_id = 1 ∧
    (crear_propuesta (crear_propuesta db datos n1).1 datos n2).2 =
      .error ⟨400, "Ya te has postulado."⟩ ∧
    (crear_propuesta (crear_propuesta db datos n1).1 datos n2).1 =
      (crear_propuesta db datos n1).1 := by
  have hnil : db.propuestas.filter (fun p =>
      p.servicio_id == datos.servicio_id &&
      p.trabajador_id == datos.trabajador_id) = [] := by
    unfold countPropuestas at h
    exact List.length_eq_zero.mp h
  have hfind : (db.propuestas.find? fun p =>
      p.servicio_id == datos.servicio_id &&
      p.trabajador_id == datos.trabajador_id) = none := by
    rw [List.find?_eq_none]
    intro x hx
    have hall := List.filter_eq_nil_iff.mp hnil x hx
    simpa using hall
  have h1 : crear_propuesta db datos n1 =
      ({db with propuestas := db.propuestas ++
          [⟨n1, datos.servicio_id, datos.trabajador_id, datos.precio_oferta,
            datos.mensaje, false⟩]}, .ok "Propuesta enviada") := by
    simp [crear_propuesta, crear_propuesta_body, hfind]
  have hsome : ((db.propuestas ++
      [(⟨n1, datos.servicio_id, datos.trabajador_id, datos.precio_oferta,
        datos.mensaje, false⟩ : Propuesta)]).find? (fun p =>
      p.servicio_id == datos.servicio_id &&
      p.trabajador_id == datos.trabajador_id)).isSome = true :=
    find?_append_singleton_isSome _ _ _ (by simp)
  refine ⟨by rw [h1], ?_, ?_, ?_⟩
  · rw [h1]
    simp [countPropuestas, List.filter_append, hnil]
  · rw [h1]
    simp [crear_propuesta, crear_propuesta_body, hsome]
  · rw [h1]
    simp [crear_propuesta, crear_propuesta_body, hsome]

/-- Witness for C7 at an empty store: service 1, worker 2, two submissions
with serial ids 100 and 101. -/
theorem C7_duplicate_proposal_witness :
    (crear_propuesta ⟨[], [], [], [], []⟩ ⟨1, 2, 50, "hola"⟩ 100).2 =
      .ok "Propuesta enviada" ∧
    countPropuestas
      (crear_propuesta ⟨[], [], [], [], []⟩ ⟨1, 2, 50, "hola"⟩ 100).1 1 2 = 1 ∧
    (crear_propuesta
      (crear_propuesta ⟨[], [], [], [], []⟩ ⟨1, 2, 50, "hola"⟩ 100).1
      ⟨1, 2, 50, "hola"⟩ 101).2 = .error ⟨400, "Ya te has postulado."⟩ ∧
    (crear_propuesta
      (crear_propuesta ⟨[], [], [], [], []⟩ ⟨1, 2, 50, "hola"⟩ 100).1
      ⟨1, 2, 50, "hola"⟩ 101).1 =
      (crear_propuesta ⟨[], [], [], [], []⟩ ⟨1, 2, 50, "hola"⟩ 100).1 :=
  C7_duplicate_proposal ⟨[], [], [], [], []⟩ ⟨1, 2, 50, "hola"⟩ 100 101
    (by decide)

theorem map_if_eq_self {α : Type} (l : List α) (p : α → Bool) (f : α → α)
    (h : ∀ x ∈ l, p x = false) :
    (l.map fun x => if p x then f x else x) = l := by
  induction l with
  | nil => rfl
  | cons x xs ih =>
    have hx := h x (List.mem_cons_self x xs)
    have hxs := ih fun y hy => h y (List.mem_cons_of_mem x hy)
    simp [List.map_cons, hx, hxs]

/-- C9: `contratar_trabajador` performs no existence check: it always
answers with the same `"¡Contratado!"` success response, and when neither
the service id nor the proposal id matches a stored row the two zero-row
UPDATEs are committed leaving the store exactly as it was — no `NotFound`
is ever raised. -/
theorem C9_contratar_no_notfound (db : DB) (datos : AceptarPropuesta) :
    (contratar_trabajador db datos).2 = .ok "¡Contratado!" ∧
    ((db.servicios.find? fun s => s.id == datos.servicio_id) = none →
     (db.propuestas.find? fun p => p.id == datos.propuesta_id) = none →
     (contratar_trabajador db datos).1 = db) := by
  constructor
  · rfl
  · intro hs hp
    have hs' : ∀ s ∈ db.servicios, (s.id == datos.servicio_id) = false := by
      intro s hmem
      have := List.find?_eq_none.mp hs s hmem
      simpa using this
    have hp' : ∀ p ∈ db.propuestas, (p.id == datos.propuesta_id) = false := by
      intro p hmem
      have := List.find?_eq_none.mp hp p hmem
      simpa using this
    show ({db with
        servicios := db.servicios.map _, propuestas := db.propuestas.map _} : DB) = db
    rw [map_if_eq_self _ _ _ hs', map_if_eq_self _ _ _ hp']

/-- Witness for C9: a store holding one unrelated service and no proposals;
hiring with ids that match nothing succeeds and changes nothing. -/
theorem C9_contratar_no_notfound_witness :
    (contratar_trabajador
      ⟨[], [], [], [⟨5, 1, 1, "t", "d", "SOLICITADO", none, none, none, none⟩],
       []⟩ ⟨88, 2, 99⟩).2 = .ok "¡Contratado!" ∧
    (contratar_trabajador
      ⟨[], [], [], [⟨5, 1, 1, "t", "d", "SOLICITADO", none, none, none, none⟩],
       []⟩ ⟨88, 2, 99⟩).1 =
      ⟨[], [], [], [⟨5, 1, 1, "t", "d", "SOLICITADO", none, none, none, none⟩],
       []⟩ :=
  ⟨(C9_contratar_no_notfound
      ⟨[], [], [], [⟨5, 1, 1, "t", "d", "SOLICITADO", none, none, none, none⟩],
       []⟩ ⟨88, 2, 99⟩).1,
   (C9_contratar_no_notfound
      ⟨[], [], [], [⟨5, 1, 1, "t", "d", "SOLICITADO", none, none, none, none⟩],
       []⟩ ⟨88, 2, 99⟩).2 (by decide) (by decide)⟩

/-- C10: in `admin_accion_usuario`, a `bloquear` action with
`dias_bloqueo = 0` takes the same Python-falsy fallback as an absent
`dias_bloqueo`: both set the user's `bloqueado_hasta` to `now + 36500`
days, not to `now`. -/
theorem C10_lock_zero_days (db : DB) (now : Int) (uid : Nat) :
    admin_accion_usuario db now ⟨uid, "bloquear", some 0⟩ =
      admin_accion_usuario db now ⟨uid, "bloquear", none⟩ ∧
    (∀ u ∈ (admin_accion_usuario db now ⟨uid, "bloquear", some 0⟩).1.usuarios,
      u.id = uid →
        u.bloqueado_hasta = some (now + 36500) ∧
        u.bloqueado_hasta ≠ some now) := by
  constructor
  · rfl
  · intro u hu huid
    have hu' : u ∈ (db.usuarios.map fun v =>
        if v.id == uid then {v with bloqueado_hasta := some (now + 36500)}
        else v) := by
      simpa [admin_accion_usuario, pyTruthyInt] using hu
    rcases List.mem_map.mp hu' with ⟨v, hv, heq⟩
    by_cases hvid : v.id = uid
    · rw [if_pos (by simpa using hvid)] at heq
      subst heq
      exact ⟨rfl, by simp only [ne_eq, Option.some.injEq]; omega⟩
    · rw [if_neg (by simpa using hvid)] at heq
      subst heq
      exact absurd huid hvid

/-- Witness for C10: locking user 1 at day 1000 with `dias_bloqueo = 0`
locks until day 37500. -/
theorem C10_lock_zero_days_witness :
    (⟨1, "A", "B", "a@x.com", ⟨0, []⟩, "5", false, true, none,
        some (1000 + 36500), none⟩ : Usuario).bloqueado_hasta =
      some (1000 + 36500) ∧
    (⟨1, "A", "B", "a@x.com", ⟨0, []⟩, "5", false, true, none,
        some (1000 + 36500), none⟩ : Usuario).bloqueado_hasta ≠
      some 1000 :=
  (C10_lock_zero_days
    ⟨[⟨1, "A", "B", "a@x.com", ⟨0, []⟩, "5", false, true, none, none, none⟩],
     [], [], [], []⟩ 1000 1).2
    ⟨1, "A", "B", "a@x.com", ⟨0, []⟩, "5", false, true, none,
      some (1000 + 36500), none⟩ (by decide) rfl

/-- Store for the C4 counterexample: service 1 is already TERMINADO
(completed, rated), service 2 is still SOLICITADO (requested), and worker 3
has a pending proposal 9 on service 1. -/
def dbC4 : DB :=
  { usuarios := [], detalles_cliente := [], detalles_trabajador := [],
    servicios := [⟨1, 10, 1, "Mudanza", "d", "TERMINADO", some 2, some 100,
                   some 5, some "ok"⟩,
                  ⟨2, 10, 1, "Pintura", "d", "SOLICITADO", none, none, none,
                   none⟩],
    propuestas := [⟨9, 1, 3, 80, "yo", false⟩] }

/-- Counterexample to C4: neither UPDATE constrains the source state.
Hiring worker 3 on the already-COMPLETED service 1 succeeds and moves it
back to EN_PROCESO (a COMPLETED→IN_PROGRESS transition the claimed state
machine forbids), and completing the still-REQUESTED service 2 succeeds and
moves it straight to TERMINADO (REQUESTED→COMPLETED). -/
theorem C4_state_machine_counterexample :
    (dbC4.servicios.find? fun s => s.id == 1) =
      some ⟨1, 10, 1, "Mudanza", "d", "TERMINADO", some 2, some 100, some 5,
            some "ok"⟩ ∧
    (contratar_trabajador dbC4 ⟨1, 3, 9⟩).2 = .ok "¡Contratado!" ∧
    ((contratar_trabajador dbC4 ⟨1, 3, 9⟩).1.servicios.find? fun s =>
      s.id == 1) =
      some ⟨1, 10, 1, "Mudanza", "d", "EN_PROCESO", some 3, some 80, some 5,
            some "ok"⟩ ∧
    (dbC4.servicios.find? fun s => s.id == 2) =
      some ⟨2, 10, 1, "Pintura", "d", "SOLICITADO", none, none, none, none⟩ ∧
    (finalizar_servicio dbC4 ⟨2, 4, "r"⟩).2 = .ok "Finalizado y calificado" ∧
    ((finalizar_servicio dbC4 ⟨2, 4, "r"⟩).1.servicios.find? fun s =>
      s.id == 2) =
      some ⟨2, 10, 1, "Pintura", "d", "TERMINADO", none, none, some 4,
            some "r"⟩ := by
  decide

theorem finalizar_servicios_component (db : DB) (dc : CalificarServicio)
    (h : ((finalizar_servicio_update db dc).find? fun x =>
      x.id == dc.servicio_id) ≠ none) :
    (finalizar_servicio db dc).1.servicios =
      finalizar_servicio_update db dc := by
  unfold finalizar_servicio finalizar_servicio_body
  cases hres : ((finalizar_servicio_update db dc).find? fun x =>
      x.id == dc.servicio_id) with
  | none => exact absurd hres h
  | some res => rfl

/-- C4 amended: the hire UPDATE sets the matching request's state to
EN_PROCESO (IN_PROGRESS), assigns the worker and copies the proposal's
price, and the completion UPDATE sets the matching request's state to
TERMINADO (COMPLETED) and attaches the rating — both unconditionally,
whatever the request's prior state; no guard restricts the source state of
either transition. -/
theorem C4_transitions_unconditional (db : DB) (a : AceptarPropuesta)
    (dc : CalificarServicio) (s t : Servicio)
    (hs : s ∈ db.servicios) (hsid : s.id = a.servicio_id)
    (ht : t ∈ db.servicios) (htid : t.id = dc.servicio_id) :
    ({s with trabajador_id := some a.trabajador_id, estado := "EN_PROCESO",
             precio_estimado := (db.propuestas.find? fun p =>
               p.id == a.propuesta_id).map fun p => p.precio_oferta} :
      Servicio) ∈ (contratar_trabajador db a).1.servicios ∧
    ({t with estado := "TERMINADO", calificacion := some dc.calificacion,
             resena := some dc.resena} : Servicio)
      ∈ (finalizar_servicio db dc).1.servicios := by
  constructor
  · show _ ∈ (db.servicios.map fun x =>
      if x.id == a.servicio_id then
        ({x with trabajador_id := some a.trabajador_id,
                 estado := "EN_PROCESO",
                 precio_estimado := (db.propuestas.find? fun p =>
                   p.id == a.propuesta_id).map fun p => p.precio_oferta} :
          Servicio)
      else x)
    refine List.mem_map.mpr ⟨s, hs, ?_⟩
    simp [hsid]
  · have hmem : ({t with estado := "TERMINADO",
                         calificacion := some dc.calificacion,
                         resena := some dc.resena} : Servicio) ∈
        finalizar_servicio_update db dc :=
      List.mem_map.mpr ⟨t, ht, by simp [htid]⟩
    have hne : ((finalizar_servicio_update db dc).find? fun x =>
        x.id == dc.servicio_id) ≠ none := by
      intro hnone
      have hcontra := List.find?_eq_none.mp hnone _ hmem
      simp [htid] at hcontra
    rw [finalizar_servicios_component db dc hne]
    exact hmem

/-- Witness for the amended C4 at `dbC4`: hiring on the completed service 1
and finalizing the requested service 2. -/
theorem C4_transitions_unconditional_witness :
    (⟨1, 10, 1, "Mudanza", "d", "EN_PROCESO", some 3, some 80, some 5,
      some "ok"⟩ : Servicio) ∈
      (contratar_trabajador dbC4 ⟨1, 3, 9⟩).1.servicios ∧
    (⟨2, 10, 1, "Pintura", "d", "TERMINADO", none, none, some 4,
      some "r"⟩ : Servicio) ∈
      (finalizar_servicio dbC4 ⟨2, 4, "r"⟩).1.servicios :=
  ⟨(C4_transitions_unconditional dbC4 ⟨1, 3, 9⟩ ⟨2, 4, "r"⟩
      ⟨1, 10, 1, "Mudanza", "d", "TERMINADO", some 2, some 100, some 5,
        some "ok"⟩
      ⟨2, 10, 1, "Pintura", "d", "SOLICITADO", none, none, none, none⟩
      (by decide) rfl (by decide) rfl).1,
   (C4_transitions_unconditional dbC4 ⟨1, 3, 9⟩ ⟨2, 4, "r"⟩
      ⟨1, 10, 1, "Mudanza", "d", "TERMINADO", some 2, some 100, some 5,
        some "ok"⟩
      ⟨2, 10, 1, "Pintura", "d", "SOLICITADO", none, none, none, none⟩
      (by decide) rfl (by decide) rfl).2⟩

/-- Store for C5: worker 2 has two completed, rated services (ratings `a`
and `b`), one in-progress unrated service 14, and the store also holds a
rated service of a different worker 3 that the aggregation must ignore. -/
def dbC5 (a b : Nat) : DB :=
  { usuarios := [], detalles_cliente := [],
    detalles_trabajador := [⟨2, "bio", 4, 150, 4, 2, true⟩],
    servicios := [⟨11, 10, 1, "s1", "d", "TERMINADO", some 2, some 100,
                   some a, some "r1"⟩,
                  ⟨12, 10, 1, "s2", "d", "TERMINADO", some 2, some 120,
                   some b, some "r2"⟩,
                  ⟨13, 10, 1, "s3", "d", "TERMINADO", some 3, some 90,
                   some 1, some "r3"⟩,
                  ⟨14, 10, 1, "s4", "d", "EN_PROCESO", some 2, some 80,
                   none, none⟩],
    propuestas := [] }

/-- C5: completing service 14 with rating `c` recomputes worker 2's stats
by aggregating over all of that worker's rated requests — the two prior
ratings plus the new one, ignoring other workers' requests — storing
average `(a+b+c)/3` and evaluation count 3; in particular prior ratings
{5,3} and a new rating 4 yield average 4.0 and count 3. -/
theorem C5_complete_and_rate_average :
    (∀ a b c : Nat,
      (finalizar_servicio (dbC5 a b) ⟨14, c, "resena"⟩).1.detalles_trabajador =
        [⟨2, "bio", 4, 150, (((a : ℚ) + b + c) / 3), 3, true⟩] ∧
      (finalizar_servicio (dbC5 a b) ⟨14, c, "resena"⟩).2 =
        .ok "Finalizado y calificado") ∧
    (finalizar_servicio (dbC5 5 3) ⟨14, 4, "resena"⟩).1.detalles_trabajador =
      [⟨2, "bio", 4, 150, 4, 3, true⟩] := by
  have hgen : ∀ a b c : Nat,
      (finalizar_servicio (dbC5 a b) ⟨14, c, "resena"⟩).1.detalles_trabajador =
        [⟨2, "bio", 4, 150, (((a : ℚ) + b + c) / 3), 3, true⟩] ∧
      (finalizar_servicio (dbC5 a b) ⟨14, c, "resena"⟩).2 =
        .ok "Finalizado y calificado" := by
    intro a b c
    constructor
    · simp [finalizar_servicio, finalizar_servicio_body,
        finalizar_servicio_update, dbC5, sumCalificaciones]
      ring
    · simp [finalizar_servicio, finalizar_servicio_body,
        finalizar_servicio_update, dbC5, sumCalificaciones]
  refine ⟨hgen, ?_⟩
  rw [(hgen 5 3 4).1]
  norm_num
